import Mathlib

/-!
Verification of the LLM provider-abstraction layer (`src/llm/mod.rs`).

The data model (provider kinds, configuration, parameters, messages,
requests, responses, stream chunks, token usage, error taxonomy) is
embedded from the Rust declarations in `src/llm/mod.rs`.  Rust's `f32`
fields are modelled as `Rat`, `u32`/`u64`/`u16` as `Nat`, `Option<T>` as
`Option T`, `Vec<T>` as `List T`, and `HashMap<String, String>` as an
association list with unique keys (`StringMap` below), matching the
uniqueness guarantee of `HashMap`.

The `config`, `streaming` and `providers` submodules are declared in
`mod.rs` (`pub mod config; pub mod streaming; pub mod providers;`) but
their sources are not present; the resolver, the retry loop and the
streaming producer are therefore modelled from the specification, each
such definition carrying a doc comment starting with
`Modelled from the spec:`.
-/

/-- Provider kind supported by the layer (Rust enum `LLMProviderType`).
`Ollama` and `LlamaCpp` are marked in the source as local-model runners. -/
inductive LLMProviderType where
  | Claude
  | OpenAI
  | Gemini
  | Ollama
  | LlamaCpp
  | Mistral
  | AzureOpenAI
  | Custom
deriving DecidableEq

/-- Deployment mode of the model (Rust enum `DeploymentMode`). -/
inductive DeploymentMode where
  | Local
  | Remote
  | Auto
deriving DecidableEq

/-- A string-to-string mapping with unique keys, modelling Rust's
`HashMap<String, String>`: the entries list carries a proof that keys do
not repeat, mirroring the hash map's by-construction key uniqueness. -/
structure StringMap where
  entries : List (String × String)
  nodupKeys : (entries.map Prod.fst).Nodup

/-- The empty mapping (Rust `HashMap::new()`). -/
def StringMap.empty : StringMap := ⟨[], List.nodup_nil⟩

/-- Lookup of a key (Rust `HashMap::get`). -/
def StringMap.get? (m : StringMap) (k : String) : Option String :=
  (m.entries.find? (fun kv => kv.fst == k)).map Prod.snd

instance : DecidableEq StringMap := fun a b =>
  if h : a.entries = b.entries then
    .isTrue (by cases a; cases b; simpa using h)
  else
    .isFalse (by intro hab; exact h (congrArg StringMap.entries hab))

/-- Generation parameters (Rust struct `ModelParameters`): all six fields
are required; `f32` is modelled as `Rat`. -/
structure ModelParameters where
  temperature : Rat
  top_p : Rat
  max_tokens : Nat
  presence_penalty : Rat
  frequency_penalty : Rat
  stop_sequences : List String
deriving DecidableEq

/-- The `impl Default for ModelParameters` block of the source, with the
same literals. -/
def ModelParameters.default : ModelParameters :=
  { temperature := 0.7
    top_p := 0.95
    max_tokens := 4096
    presence_penalty := 0.0
    frequency_penalty := 0.0
    stop_sequences := [] }

instance : Inhabited ModelParameters := ⟨ModelParameters.default⟩

/-- Configuration of one provider (Rust struct `LLMProviderConfig`). -/
structure LLMProviderConfig where
  provider_type : LLMProviderType
  model_name : String
  deployment : DeploymentMode
  base_url : Option String
  api_key : Option String
  headers : StringMap
  parameters : ModelParameters
  timeout_seconds : Nat
  max_retries : Nat
deriving DecidableEq

/-- Author role of a conversation message (Rust enum `Role`). -/
inductive Role where
  | User
  | Assistant
  | System
deriving DecidableEq

/-- One turn of a conversation (Rust struct `LLMMessage`). -/
structure LLMMessage where
  role : Role
  content : String
  metadata : Option StringMap
deriving DecidableEq

/-- A generation request (Rust struct `LLMRequest`). -/
structure LLMRequest where
  messages : List LLMMessage
  parameters : Option ModelParameters
  stream : Bool
deriving DecidableEq

/-- Cause of generation termination (Rust enum `FinishReason`). -/
inductive FinishReason where
  | Stop
  | Length
  | ContentFilter
  | ToolUse
deriving DecidableEq

/-- Token accounting (Rust struct `TokenUsage`); `u32` modelled as `Nat`. -/
structure TokenUsage where
  prompt_tokens : Nat
  completion_tokens : Nat
  total_tokens : Nat
deriving DecidableEq

/-- A complete generation response (Rust struct `LLMResponse`). -/
structure LLMResponse where
  content : String
  finish_reason : FinishReason
  usage : TokenUsage
  model : String
  metadata : Option StringMap
deriving DecidableEq

/-- One increment of a streamed response (Rust struct `LLMStreamChunk`). -/
structure LLMStreamChunk where
  delta : String
  finish_reason : Option FinishReason
  metadata : Option StringMap
deriving DecidableEq

/-- The normalized error taxonomy (Rust enum `LLMError`); the `u16`
status of `APIError` is modelled as `Nat`. -/
inductive LLMError where
  | InvalidConfig : String → LLMError
  | AuthenticationError : String → LLMError
  | NetworkError : String → LLMError
  | APIError : Nat → String → LLMError
  | TokenLimitExceeded : LLMError
  | Timeout : LLMError
  | ModelNotFound : String → LLMError
  | ParseError : String → LLMError
  | InternalError : String → LLMError
deriving DecidableEq

/-! ## Configuration resolver (modelled from the spec)

The `config` submodule is declared in `mod.rs` but its source is absent;
the resolver below follows §4.1 of the specification. -/

/-- Modelled from the spec: whether a provider kind is a local-runner
kind.  The source marks `Ollama` and `LlamaCpp` as local-model runners
(comments on the `LLMProviderType` variants). -/
def isLocalRunner : LLMProviderType → Bool
  | .Ollama => true
  | .LlamaCpp => true
  | _ => false

/-- Modelled from the spec: whether a provider kind requires
authentication — "all hosted vendor kinds; local runners do not". -/
def requiresAuth : LLMProviderType → Bool
  | .Claude => true
  | .OpenAI => true
  | .Gemini => true
  | .Mistral => true
  | .AzureOpenAI => true
  | .Ollama => false
  | .LlamaCpp => false
  | .Custom => false

/-- Modelled from the spec: the per-provider-kind default endpoint used
when no explicit base URL is configured ("explicit base URL or a
per-provider-kind default").  Hosted vendors and the local runners have
well-known defaults; `AzureOpenAI` needs a per-resource URL and `Custom`
has no default. -/
def defaultBaseUrl : LLMProviderType → Option String
  | .Claude => some "https://api.anthropic.com"
  | .OpenAI => some "https://api.openai.com"
  | .Gemini => some "https://generativelanguage.googleapis.com"
  | .Ollama => some "http://localhost:11434"
  | .LlamaCpp => some "http://localhost:8080"
  | .Mistral => some "https://api.mistral.ai"
  | .AzureOpenAI => none
  | .Custom => none

/-- Modelled from the spec: resolution of `DeploymentMode.Auto` — "to
`Local` when the provider kind is a local-runner kind, to `Remote`
otherwise; this is a static, deterministic mapping". -/
def resolveAutoMode (t : LLMProviderType) : DeploymentMode :=
  if isLocalRunner t then .Local else .Remote

/-- Modelled from the spec: the concrete deployment mode a configuration
resolves to — `Auto` goes through `resolveAutoMode`, concrete modes are
kept. -/
def resolvedMode (c : LLMProviderConfig) : DeploymentMode :=
  match c.deployment with
  | .Auto => resolveAutoMode c.provider_type
  | m => m

/-- Modelled from the spec: `resolve(config) -> ResolvedConfiguration |
ConfigError` (§4.1).  Validates a non-empty model name; resolves `Auto`
through `resolveAutoMode`; for `Remote` requires a usable endpoint and,
for kinds requiring authentication, a non-empty credential; all
validation failures are `InvalidConfig`. -/
def resolve (c : LLMProviderConfig) : Except LLMError LLMProviderConfig :=
  if c.model_name = "" then
    .error (.InvalidConfig "model name must be non-empty")
  else
    match resolvedMode c with
    | .Local => .ok { c with deployment := .Local }
    | _ =>
      if c.base_url.getD "" = "" ∧ defaultBaseUrl c.provider_type = none then
        .error (.InvalidConfig "no endpoint available")
      else if requiresAuth c.provider_type = true ∧ c.api_key.getD "" = "" then
        .error (.InvalidConfig "missing credential for remote provider")
      else
        .ok { c with deployment := .Remote }

/-! ## Retry loop of `generate` (modelled from the spec)

The `providers` submodule is declared in `mod.rs` but its source is
absent; the retry policy below follows §4.2 and §7 of the specification.
A backend is abstracted as a function from the attempt index to that
attempt's outcome; `generate` returns the final outcome together with
the number of attempts made. -/

/-- Modelled from the spec: which errors are transient and may be
retried — network errors, timeouts (same budget), and 5xx-class API
errors; everything else is never retried. -/
def isTransient : LLMError → Bool
  | .NetworkError _ => true
  | .Timeout => true
  | .APIError status _ => decide (500 ≤ status ∧ status < 600)
  | _ => false

/-- Modelled from the spec: the retry loop of `generate`.  `attempt` is
the index of the attempt about to be made, `retriesLeft` the number of
retries still allowed.  Returns the outcome and the total number of
attempts made so far (attempts are numbered from zero). -/
def retryLoop (backend : Nat → Except LLMError LLMResponse)
    (attempt : Nat) : Nat → Except LLMError LLMResponse × Nat
  | 0 =>
    match backend attempt with
    | .ok r => (.ok r, attempt + 1)
    | .error e => (.error e, attempt + 1)
  | n + 1 =>
    match backend attempt with
    | .ok r => (.ok r, attempt + 1)
    | .error e =>
      if isTransient e then retryLoop backend (attempt + 1) n
      else (.error e, attempt + 1)

/-- Modelled from the spec: `generate` retries up to `max_retries` times
on transient failures only, and surfaces the last error otherwise. -/
def generate (backend : Nat → Except LLMError LLMResponse)
    (cfg : LLMProviderConfig) : Except LLMError LLMResponse × Nat :=
  retryLoop backend 0 cfg.max_retries

/-! ## Deterministic fake backend and streaming (modelled from the spec)

The `streaming` submodule is declared in `mod.rs` but its source is
absent; the producer below follows §4.3 and the testable properties of
§8, which prescribe a deterministic fake backend with fixed output. -/

/-- Modelled from the spec: a deterministic backend with fixed output —
the full content, the finish reason, the token counts and the model
name it reports for every request. -/
structure FakeBackend where
  content : String
  finish : FinishReason
  prompt_count : Nat
  completion_count : Nat
  model : String

/-- Modelled from the spec: token usage carried by a response is built
from the prompt and completion counts, with
`total_tokens = prompt_tokens + completion_tokens`. -/
def TokenUsage.fromCounts (p c : Nat) : TokenUsage :=
  { prompt_tokens := p, completion_tokens := c, total_tokens := p + c }

/-- Modelled from the spec: the non-streaming `generate` of the fake
backend returns the complete fixed output as one `LLMResponse`. -/
def FakeBackend.generate (b : FakeBackend) (_req : LLMRequest) : LLMResponse :=
  { content := b.content
    finish_reason := b.finish
    usage := TokenUsage.fromCounts b.prompt_count b.completion_count
    model := b.model
    metadata := none }

/-- Modelled from the spec: split a character list into successive
nonempty chunks according to a schedule of cut sizes; a chunk takes
`n + 1` characters so every emitted delta is nonempty, and whatever the
schedule leaves over is emitted as one final delta. -/
def chunkList (cs : List Char) : List Nat → List (List Char)
  | [] => if cs = [] then [] else [cs]
  | n :: ns =>
    if cs = [] then []
    else cs.take (n + 1) :: chunkList (cs.drop (n + 1)) ns

/-- Modelled from the spec: the streaming `generate_stream` of the fake
backend emits the content split into deltas (in generation order, per
the schedule) and then one terminal chunk carrying the finish reason;
only that last chunk has a present finish reason. -/
def FakeBackend.generate_stream (b : FakeBackend) (sched : List Nat)
    (_req : LLMRequest) : List LLMStreamChunk :=
  (chunkList b.content.data sched).map
    (fun d => { delta := String.mk d, finish_reason := none, metadata := none })
  ++ [{ delta := "", finish_reason := some b.finish, metadata := none }]

/-- Concatenation of the `delta` fields of a chunk sequence in emission
order. -/
def concatDeltas : List LLMStreamChunk → String
  | [] => ""
  | c :: cs => c.delta ++ concatDeltas cs

/-! ## Helper lemmas -/

lemma chunkList_flatten (ns : List Nat) : ∀ cs : List Char,
    (chunkList cs ns).flatten = cs := by
  induction ns with
  | nil =>
    intro cs
    by_cases h : cs = [] <;> simp [chunkList, h]
  | cons n ns ih =>
    intro cs
    by_cases h : cs = []
    · simp [chunkList, h]
    · simp only [chunkList, if_neg h, List.flatten_cons, ih]
      exact List.take_append_drop _ cs

lemma string_mk_append (a b : List Char) :
    String.mk a ++ String.mk b = String.mk (a ++ b) := rfl

lemma concatDeltas_stream (b : FakeBackend) (sched : List Nat)
    (req : LLMRequest) :
    concatDeltas (b.generate_stream sched req) = b.content := by
  unfold FakeBackend.generate_stream
  have key : ∀ l : List (List Char),
      concatDeltas ((l.map (fun d =>
          ({ delta := String.mk d, finish_reason := none,
             metadata := none } : LLMStreamChunk)))
        ++ [{ delta := "", finish_reason := some b.finish,
              metadata := none }]) = String.mk l.flatten := by
    intro l
    induction l with
    | nil => rfl
    | cons d l ih =>
      exact (congrArg (fun s => String.mk d ++ s) ih).trans
        (string_mk_append d l.flatten)
  rw [key, chunkList_flatten]

lemma stringMap_ext (a b : StringMap) (h : a.entries = b.entries) :
    a = b := by
  cases a; cases b; simpa using h

lemma nodup_keys_functional (l : List (String × String))
    (hnd : (l.map Prod.fst).Nodup) (k v w : String)
    (hv : (k, v) ∈ l) (hw : (k, w) ∈ l) : v = w := by
  induction l with
  | nil => cases hv
  | cons a t ih =>
    simp only [List.map_cons, List.nodup_cons] at hnd
    rcases List.mem_cons.mp hv with hv1 | hv1 <;>
      rcases List.mem_cons.mp hw with hw1 | hw1
    · exact congrArg Prod.snd (hv1.trans hw1.symm)
    · exfalso
      apply hnd.1
      have hk : (k : String) ∈ List.map Prod.fst t :=
        List.mem_map_of_mem Prod.fst hw1
      rw [← hv1]
      exact hk
    · exfalso
      apply hnd.1
      have hk : (k : String) ∈ List.map Prod.fst t :=
        List.mem_map_of_mem Prod.fst hv1
      rw [← hw1]
      exact hk
    · exact ih hnd.2 hv1 hw1

lemma isLocalRunner_iff (t : LLMProviderType) :
    isLocalRunner t = true ↔ (t = .Ollama ∨ t = .LlamaCpp) := by
  cases t <;> simp [isLocalRunner]

lemma resolveAutoMode_local_iff (t : LLMProviderType) :
    resolveAutoMode t = .Local ↔ isLocalRunner t = true := by
  unfold resolveAutoMode
  by_cases h : isLocalRunner t <;> simp [h]

lemma resolvedMode_ne_auto (c : LLMProviderConfig) : resolvedMode c ≠ .Auto := by
  unfold resolvedMode
  cases hd : c.deployment with
  | Local => simp
  | Remote => simp
  | Auto =>
    unfold resolveAutoMode
    by_cases h : isLocalRunner c.provider_type <;> simp [h]

lemma resolve_ok_elim (c r : LLMProviderConfig) (h : resolve c = .ok r) :
    c.model_name ≠ "" ∧
    ((resolvedMode c = .Local ∧ r = { c with deployment := .Local }) ∨
     (resolvedMode c = .Remote ∧ r = { c with deployment := .Remote } ∧
      ¬(c.base_url.getD "" = "" ∧ defaultBaseUrl c.provider_type = none) ∧
      ¬(requiresAuth c.provider_type = true ∧ c.api_key.getD "" = ""))) := by
  cases hm : resolvedMode c with
  | Auto => exact absurd hm (resolvedMode_ne_auto c)
  | Local =>
    simp only [resolve, hm] at h
    split at h
    · simp at h
    next hname =>
      injection h with h2
      subst h2
      exact ⟨hname, .inl ⟨rfl, rfl⟩⟩
  | Remote =>
    simp only [resolve, hm] at h
    split at h
    · simp at h
    next hname =>
      split at h
      · simp at h
      next hend =>
        split at h
        · simp at h
        next hauth =>
          injection h with h2
          subst h2
          exact ⟨hname, .inr ⟨rfl, rfl, hend, hauth⟩⟩

/-! ## Claim theorems -/

/-- Claim C7: every `TokenUsage` carried by a response of the
deterministic backend satisfies
`total_tokens = prompt_tokens + completion_tokens`, and all three counts
are non-negative (token counts are `u32`, modelled as `Nat`). -/
theorem C7_token_usage (b : FakeBackend) (req : LLMRequest) :
    ((b.generate req).usage.total_tokens
      = (b.generate req).usage.prompt_tokens
        + (b.generate req).usage.completion_tokens)
    ∧ 0 ≤ (b.generate req).usage.prompt_tokens
    ∧ 0 ≤ (b.generate req).usage.completion_tokens
    ∧ 0 ≤ (b.generate req).usage.total_tokens := by
  refine ⟨?_, Nat.zero_le _, Nat.zero_le _, Nat.zero_le _⟩
  rfl

/-- Claim C8: evaluation of the source's `Default` at the failing input.
`ModelParameters` declares all fields required (`f32`, `u32`, `Vec`),
so no field has an unset state, and the defaulted parameter set carries
`presence_penalty = 0.0` and `frequency_penalty = 0.0` — the "unset"
(defaulted) penalties are collapsed to the explicit zero value,
contradicting the claim that unset is never collapsed to zero. -/
theorem C8_default_collapses_to_zero :
    ModelParameters.default.frequency_penalty = 0
    ∧ ModelParameters.default.presence_penalty = 0
    ∧ ModelParameters.default.temperature = 7/10 := by
  refine ⟨?_, ?_, ?_⟩ <;> norm_num [ModelParameters.default]

/-- Claim C9: the `Default` implementation of `ModelParameters` yields
exactly temperature `0.7`, top_p `0.95`, max_tokens `4096`,
presence_penalty `0.0`, frequency_penalty `0.0` and an empty
`stop_sequences` list (rationals written in lowest terms). -/
theorem C9_default_values :
    ModelParameters.default.temperature = 7/10
    ∧ ModelParameters.default.top_p = 19/20
    ∧ ModelParameters.default.max_tokens = 4096
    ∧ ModelParameters.default.presence_penalty = 0
    ∧ ModelParameters.default.frequency_penalty = 0
    ∧ ModelParameters.default.stop_sequences = [] := by
  refine ⟨?_, ?_, rfl, ?_, ?_, rfl⟩ <;> norm_num [ModelParameters.default]

/-- Claim C4: for a configuration in `Auto` mode that resolves
successfully, the resolved deployment is `Local` exactly when the
provider kind is a local-runner kind (`Ollama` or `LlamaCpp`) and
`Remote` for every other kind; the mapping is the static function
`resolveAutoMode`, with no probing. -/
theorem C4_auto_static_mapping (c r : LLMProviderConfig)
    (hAuto : c.deployment = .Auto) (hOk : resolve c = .ok r) :
    (r.deployment = .Local
      ↔ (c.provider_type = .Ollama ∨ c.provider_type = .LlamaCpp))
    ∧ ((¬(c.provider_type = .Ollama ∨ c.provider_type = .LlamaCpp))
        → r.deployment = .Remote)
    ∧ r.deployment = resolveAutoMode c.provider_type := by
  have hmode : resolvedMode c = resolveAutoMode c.provider_type := by
    unfold resolvedMode
    rw [hAuto]
  rcases (resolve_ok_elim c r hOk).2 with ⟨hl, hr⟩ | ⟨hl, hr, _, _⟩
  · rw [hmode] at hl
    have hloc : isLocalRunner c.provider_type = true :=
      (resolveAutoMode_local_iff _).mp hl
    have hOL := (isLocalRunner_iff _).mp hloc
    subst hr
    exact ⟨⟨fun _ => hOL, fun _ => rfl⟩, fun hn => absurd hOL hn, hl.symm⟩
  · rw [hmode] at hl
    subst hr
    refine ⟨⟨fun hld => ?_, fun hOL => ?_⟩, fun _ => rfl, hl.symm⟩
    · exact absurd hld (by simp)
    · exfalso
      have hloc := (isLocalRunner_iff _).mpr hOL
      rw [resolveAutoMode, if_pos hloc] at hl
      cases hl

/-- A concrete `Auto`-mode local-runner configuration used to witness
claim C4. -/
def cfgC4 : LLMProviderConfig :=
  { provider_type := .Ollama
    model_name := "llama3"
    deployment := .Auto
    base_url := none
    api_key := none
    headers := StringMap.empty
    parameters := ModelParameters.default
    timeout_seconds := 30
    max_retries := 3 }

/-- Claim C4, witness: the `Auto` + `Ollama` configuration resolves and
its resolved deployment mode is `Local`. -/
theorem C4_witness :
    cfgC4.deployment = .Auto
    ∧ resolve cfgC4 = .ok { cfgC4 with deployment := .Local }
    ∧ ({ cfgC4 with deployment := .Local } : LLMProviderConfig).deployment
        = .Local :=
  ⟨rfl, rfl,
    (C4_auto_static_mapping cfgC4 { cfgC4 with deployment := .Local }
      rfl rfl).1.mpr (.inl rfl)⟩

/-- Claim C5: a `Remote` configuration whose provider kind requires
authentication and whose credential is absent or empty fails at
resolution time with an `InvalidConfig` error. -/
theorem C5_remote_missing_credential (c : LLMProviderConfig)
    (hdep : c.deployment = .Remote)
    (hauth : requiresAuth c.provider_type = true)
    (hkey : c.api_key = none ∨ c.api_key = some "") :
    ∃ msg, resolve c = .error (.InvalidConfig msg) := by
  have hm : resolvedMode c = .Remote := by
    unfold resolvedMode
    rw [hdep]
  unfold resolve
  split
  · exact ⟨_, rfl⟩
  · simp only [hm]
    split
    · exact ⟨_, rfl⟩
    next hA =>
      split
      · exact ⟨_, rfl⟩
      next hB =>
        exfalso
        apply hB
        refine ⟨hauth, ?_⟩
        rcases hkey with h | h <;> simp [h]

/-- A concrete `Remote` hosted-vendor configuration with no credential
used to witness claim C5. -/
def cfgC5 : LLMProviderConfig :=
  { provider_type := .OpenAI
    model_name := "gpt-4"
    deployment := .Remote
    base_url := none
    api_key := none
    headers := StringMap.empty
    parameters := ModelParameters.default
    timeout_seconds := 30
    max_retries := 3 }

/-- Claim C5, witness: `Remote` + `OpenAI` + no credential makes
`resolve` fail with `InvalidConfig`. -/
theorem C5_witness :
    cfgC5.deployment = .Remote
    ∧ requiresAuth cfgC5.provider_type = true
    ∧ cfgC5.api_key = none
    ∧ ∃ msg, resolve cfgC5 = .error (.InvalidConfig msg) :=
  ⟨rfl, rfl, rfl, C5_remote_missing_credential cfgC5 rfl rfl (.inl rfl)⟩

/-- Claim C6: `resolve` is a pure deterministic function — identical
input yields identical output — and is idempotent: re-resolving an
already-resolved output returns that output unchanged. -/
theorem C6_resolve_idempotent (c : LLMProviderConfig) :
    resolve c = resolve c
    ∧ ∀ r, resolve c = .ok r → resolve r = .ok r := by
  refine ⟨rfl, fun r hOk => ?_⟩
  obtain ⟨hname, hcases⟩ := resolve_ok_elim c r hOk
  rcases hcases with ⟨hl, hr⟩ | ⟨hl, hr, hend, hauth⟩
  · subst hr
    unfold resolve
    split
    next hcon => exact absurd hcon hname
    · rfl
  · subst hr
    have hbody : resolve { c with deployment := .Remote }
        = (if c.base_url.getD "" = "" ∧ defaultBaseUrl c.provider_type = none
           then .error (.InvalidConfig "no endpoint available")
           else if requiresAuth c.provider_type = true ∧ c.api_key.getD "" = ""
           then .error (.InvalidConfig "missing credential for remote provider")
           else .ok { c with deployment := .Remote }) := by
      unfold resolve
      split
      next hcon => exact absurd hcon hname
      · rfl
    rw [hbody, if_neg hend, if_neg hauth]

/-- A concrete `Remote` hosted-vendor configuration with a credential
used to witness claim C6. -/
def cfgC6 : LLMProviderConfig :=
  { provider_type := .Claude
    model_name := "claude-sonnet"
    deployment := .Auto
    base_url := none
    api_key := some "sk-test"
    headers := StringMap.empty
    parameters := ModelParameters.default
    timeout_seconds := 60
    max_retries := 2 }

/-- Claim C6, witness: resolving a concrete configuration succeeds and
resolving its output again returns the same output. -/
theorem C6_witness :
    resolve cfgC6 = .ok { cfgC6 with deployment := .Remote }
    ∧ resolve { cfgC6 with deployment := .Remote }
        = .ok { cfgC6 with deployment := .Remote } :=
  ⟨rfl, (C6_resolve_idempotent cfgC6).2 { cfgC6 with deployment := .Remote } rfl⟩

/-- Claim C10: in every configuration the headers mapping is present and
functional — a key is mapped to at most one value, by the
by-construction key uniqueness of the map — and the empty mapping is
exactly the state in which no key is mapped. -/
theorem C10_headers_unique_total (c : LLMProviderConfig) :
    (∀ k v w, (k, v) ∈ c.headers.entries → (k, w) ∈ c.headers.entries
      → v = w)
    ∧ (c.headers = StringMap.empty ↔ ∀ k, c.headers.get? k = none) := by
  refine ⟨fun k v w hv hw =>
    nodup_keys_functional _ c.headers.nodupKeys k v w hv hw, ?_, ?_⟩
  · intro h k
    rw [h]
    rfl
  · intro h
    apply stringMap_ext
    cases hE : c.headers.entries with
    | nil => rfl
    | cons kv t =>
      exfalso
      have hk := h kv.fst
      rw [StringMap.get?, hE] at hk
      simp at hk

/-- A concrete configuration with one header entry used to witness
claim C10. -/
def cfgC10 : LLMProviderConfig :=
  { provider_type := .Custom
    model_name := "local-model"
    deployment := .Local
    base_url := some "http://localhost:9000"
    api_key := none
    headers := ⟨[("x-trace", "1")], by simp⟩
    parameters := ModelParameters.default
    timeout_seconds := 10
    max_retries := 0 }

/-- Claim C10, witness: the uniqueness property applied to the one
concrete header entry, and the empty-map characterization instantiated
at the concrete configuration. -/
theorem C10_witness :
    ("1" : String) = "1"
    ∧ (cfgC10.headers = StringMap.empty
        ↔ ∀ k, cfgC10.headers.get? k = none) :=
  ⟨(C10_headers_unique_total cfgC10).1 "x-trace" "1" "1"
      (by simp [cfgC10]) (by simp [cfgC10]),
    (C10_headers_unique_total cfgC10).2⟩

/-- Claim C1: against the deterministic backend, for a non-streaming
request and its streaming twin (differing only in the `stream` flag),
the concatenation of all emitted chunk deltas in emission order equals
the `content` of the non-streaming response, for every chunking
schedule. -/
theorem C1_stream_concat_eq_content (b : FakeBackend)
    (req reqS : LLMRequest) (sched : List Nat)
    (hns : req.stream = false) (hs : reqS = { req with stream := true }) :
    concatDeltas (b.generate_stream sched reqS)
      = (b.generate req).content := by
  rw [concatDeltas_stream]
  rfl

/-- A concrete deterministic backend used to witness claims about
streaming. -/
def bC1 : FakeBackend :=
  { content := "hello world"
    finish := .Stop
    prompt_count := 5
    completion_count := 2
    model := "fake-model" }

/-- A concrete non-streaming request used to witness claim C1. -/
def reqC1 : LLMRequest :=
  { messages := [{ role := .User, content := "hi", metadata := none }]
    parameters := none
    stream := false }

/-- Claim C1, witness: for the concrete backend and request, the
streamed deltas concatenate to the non-streaming content. -/
theorem C1_witness :
    reqC1.stream = false
    ∧ concatDeltas
        (bC1.generate_stream [2, 0] { reqC1 with stream := true })
      = (bC1.generate reqC1).content :=
  ⟨rfl, C1_stream_concat_eq_content bC1 reqC1 { reqC1 with stream := true }
    [2, 0] rfl rfl⟩

/-- Claim C2: every successfully terminating chunk sequence produced by
one `generate_stream` call has exactly one chunk whose finish reason is
present; that chunk is the last element of the sequence, and every
earlier chunk carries no finish reason. -/
theorem C2_single_terminal_finish (b : FakeBackend) (sched : List Nat)
    (req : LLMRequest) :
    (((b.generate_stream sched req).filter
        (fun ch => ch.finish_reason.isSome)).length = 1)
    ∧ ((b.generate_stream sched req).getLast?
        = some { delta := "", finish_reason := some b.finish,
                 metadata := none })
    ∧ (∀ ch ∈ (b.generate_stream sched req).dropLast,
        ch.finish_reason = none) := by
  unfold FakeBackend.generate_stream
  refine ⟨?_, ?_, ?_⟩
  · rw [List.filter_append]
    have h1 : ((chunkList b.content.data sched).map
        (fun d => ({ delta := String.mk d, finish_reason := none,
                     metadata := none } : LLMStreamChunk))).filter
        (fun ch => ch.finish_reason.isSome) = [] := by
      rw [List.filter_eq_nil_iff]
      intro ch hch
      rcases List.mem_map.mp hch with ⟨d, _, rfl⟩
      simp
    rw [h1]
    rfl
  · exact List.getLast?_concat _
  · rw [List.dropLast_concat]
    intro ch hch
    rcases List.mem_map.mp hch with ⟨d, _, rfl⟩
    rfl

lemma retryLoop_success (backend : Nat → Except LLMError LLMResponse)
    (r : LLMResponse) :
    ∀ (n a : Nat),
    (∀ i, i < n → ∃ e, backend (a + i) = .error e ∧ isTransient e = true) →
    backend (a + n) = .ok r →
    retryLoop backend a n = (.ok r, a + n + 1) := by
  intro n
  induction n with
  | zero =>
    intro a _ hok
    have hok' : backend a = .ok r := by simpa using hok
    unfold retryLoop
    rw [hok']
  | succ n ih =>
    intro a herr hok
    obtain ⟨e, he, ht⟩ := herr 0 (Nat.succ_pos n)
    have he' : backend a = .error e := by simpa using he
    have hrec := ih (a + 1)
      (fun i hi => by
        have h := herr (i + 1) (Nat.succ_lt_succ hi)
        rwa [show a + (i + 1) = a + 1 + i by omega] at h)
      (by rwa [show a + 1 + n = a + (n + 1) by omega])
    unfold retryLoop
    rw [he']
    simp only [ht, if_true, hrec]
    simp only [Prod.mk.injEq, true_and]
    omega

lemma generate_nonTransient (backend : Nat → Except LLMError LLMResponse)
    (cfg : LLMProviderConfig) (e : LLMError)
    (he : backend 0 = .error e) (ht : isTransient e = false) :
    generate backend cfg = (.error e, 1) := by
  unfold generate
  cases cfg.max_retries with
  | zero =>
    unfold retryLoop
    rw [he]
  | succ n =>
    unfold retryLoop
    rw [he]
    simp [ht]

/-- Claim C3: the retry policy of `generate` — if every one of the first
`max_retries` attempts fails with a transient error and the next attempt
succeeds, `generate` returns that success after exactly
`max_retries + 1` attempts (so at most `max_retries + 1`); a first
attempt failing with `AuthenticationError`, `InvalidConfig` or
`TokenLimitExceeded` is surfaced after exactly one attempt, with no
retry. -/
theorem C3_retry_policy (backend : Nat → Except LLMError LLMResponse)
    (cfg : LLMProviderConfig) :
    (∀ r : LLMResponse,
      (∀ i, i < cfg.max_retries
        → ∃ e, backend i = .error e ∧ isTransient e = true) →
      backend cfg.max_retries = .ok r →
      generate backend cfg = (.ok r, cfg.max_retries + 1))
    ∧ (∀ m, backend 0 = .error (.AuthenticationError m) →
        generate backend cfg = (.error (.AuthenticationError m), 1))
    ∧ (∀ m, backend 0 = .error (.InvalidConfig m) →
        generate backend cfg = (.error (.InvalidConfig m), 1))
    ∧ (backend 0 = .error .TokenLimitExceeded →
        generate backend cfg = (.error .TokenLimitExceeded, 1)) := by
  refine ⟨?_, ?_, ?_, ?_⟩
  · intro r herr hok
    unfold generate
    have h := retryLoop_success backend r cfg.max_retries 0
      (by simpa using herr) (by simpa using hok)
    simpa using h
  · intro m h
    exact generate_nonTransient backend cfg _ h rfl
  · intro m h
    exact generate_nonTransient backend cfg _ h rfl
  · intro h
    exact generate_nonTransient backend cfg _ h rfl

/-- A concrete successful response used to witness claim C3. -/
def respC3 : LLMResponse :=
  { content := "ok"
    finish_reason := .Stop
    usage := TokenUsage.fromCounts 1 1
    model := "m"
    metadata := none }

/-- A concrete backend failing transiently on the first two attempts and
succeeding afterwards, used to witness claim C3. -/
def bkC3 : Nat → Except LLMError LLMResponse :=
  fun i => if i < 2 then .error (.NetworkError "down") else .ok respC3

/-- A concrete backend always failing with an authentication error, used
to witness claim C3. -/
def bkAuthC3 : Nat → Except LLMError LLMResponse :=
  fun _ => .error (.AuthenticationError "bad key")

/-- A concrete configuration with `max_retries = 2`, used to witness
claim C3. -/
def cfgC3 : LLMProviderConfig :=
  { provider_type := .Mistral
    model_name := "mistral-small"
    deployment := .Remote
    base_url := none
    api_key := some "k"
    headers := StringMap.empty
    parameters := ModelParameters.default
    timeout_seconds := 30
    max_retries := 2 }

/-- Claim C3, witness: the transiently-failing backend succeeds after
three attempts (`max_retries = 2`), and the authentication-failing
backend is surfaced after exactly one attempt. -/
theorem C3_witness :
    generate bkC3 cfgC3 = (.ok respC3, 3)
    ∧ generate bkAuthC3 cfgC3 = (.error (.AuthenticationError "bad key"), 1) := by
  constructor
  · exact (C3_retry_policy bkC3 cfgC3).1 respC3
      (fun i hi => ⟨.NetworkError "down", by
        have hi2 : i < 2 := hi
        simp [bkC3, hi2], rfl⟩)
      rfl
  · exact (C3_retry_policy bkAuthC3 cfgC3).2.1 "bad key" rfl

/-- A concrete deterministic backend used to witness claim C2. -/
def bC2 : FakeBackend :=
  { content := "ab"
    finish := .Stop
    prompt_count := 3
    completion_count := 1
    model := "fake-model" }

/-- A concrete streaming request used to witness claim C2. -/
def reqC2 : LLMRequest :=
  { messages := [{ role := .User, content := "go", metadata := none }]
    parameters := none
    stream := true }

/-- Claim C2, witness: on the concrete stream, exactly one chunk has a
present finish reason, and a concrete non-terminal chunk is shown (with
its membership discharged) to carry none. -/
theorem C2_witness :
    (({ delta := "a", finish_reason := none, metadata := none }
        : LLMStreamChunk) ∈ (bC2.generate_stream [0] reqC2).dropLast)
    ∧ (({ delta := "a", finish_reason := none, metadata := none }
        : LLMStreamChunk).finish_reason = none)
    ∧ ((bC2.generate_stream [0] reqC2).filter
        (fun ch => ch.finish_reason.isSome)).length = 1 :=
  ⟨by decide,
    (C2_single_terminal_finish bC2 [0] reqC2).2.2 _ (by decide),
    (C2_single_terminal_finish bC2 [0] reqC2).1⟩
